import Mathlib

/-!
Gemini/OpenAI translation proxy (`index.js`).

A shallow embedding of the Express application in `index.js`: the three
route handlers, the fallback route, the error-handling middleware and the
order in which Express runs them.

JavaScript values are embedded as `JVal`.  Everything the program obtains
from outside (the outcome of body parsing, the upstream reply, the clock, the
environment variable, the text the engine puts in a `TypeError`,
`JSON.stringify` and the route matching of Express) is an explicit input.
-/

namespace GeminiProxy

/-! ## JavaScript values -/

/-- JavaScript values as the program sees them: what `JSON.parse` can
produce, plus `undefined` (the result of reading an absent property).  A
number is identified by its rendering `String(n)`, so `0` and `-0` coincide;
an object is the list of its own properties in enumeration order. -/
inductive JVal where
  | undefined
  | null
  | bool (b : Bool)
  | num (text : String)
  | str (s : String)
  | arr (xs : List JVal)
  | obj (fields : List (String × JVal))

namespace JVal

/-- JavaScript truthiness (`!v` is `!truthy v`). -/
def truthy : JVal → Bool
  | undefined => false
  | null => false
  | bool b => b
  | num text => decide (text ≠ "0" ∧ text ≠ "NaN")
  | str s => decide (s ≠ "")
  | arr _ => true
  | obj _ => true

/-- The test `Array.isArray(v)`. -/
def isArray : JVal → Bool
  | arr _ => true
  | _ => false

/-- The test `v === s` for a string literal `s`. -/
def strictEqStr : JVal → String → Bool
  | str t, s => decide (t = s)
  | _, _ => false

/-- The test `v === undefined`. -/
def isUndefined : JVal → Bool
  | undefined => true
  | _ => false

/-- The elements of an array value (no elements for any other value). -/
def elems : JVal → List JVal
  | arr xs => xs
  | _ => []

end JVal

/-- Own property `k` of an object given by its field list. -/
def lookupField (k : String) : List (String × JVal) → Option JVal
  | [] => none
  | (k', v) :: rest => if k' = k then some v else lookupField k rest

/-- A thrown JavaScript error; the program only ever reads its `message`. -/
structure JsError where
  message : String

/-- The parts of the JavaScript engine the program relies on and whose exact
output is fixed by the engine, not by `index.js`. -/
structure Runtime where
  /-- The function `JSON.stringify`; `none` is the result `undefined`. -/
  stringify : JVal → Option String
  /-- The message of the `TypeError` raised when property `k` of the
  `undefined` or `null` value `v` is read. -/
  typeErrorMessage : JVal → String → String
  /-- The message of the `TypeError` raised when an object cannot be converted
  to a primitive value. -/
  convertErrorMessage : String

/-- The read `v.k` (also the destructuring read `const { k } = v`), for the
property names used in `index.js` (`messages`, `model`, `role`, `content`,
`candidates`, `parts`, `text`), none of which is defined on a built-in
prototype: it throws on `undefined` and `null`, yields the own property of an
object and `undefined` for everything else. -/
def getProp (rt : Runtime) (v : JVal) (k : String) : Except JsError JVal :=
  match v with
  | .undefined => .error ⟨rt.typeErrorMessage v k⟩
  | .null => .error ⟨rt.typeErrorMessage v k⟩
  | .obj fields => .ok ((lookupField k fields).getD .undefined)
  | _ => .ok .undefined

/-- The read `v[0]`: first element of an array, first character of a string
(for a leading character outside the basic plane JavaScript yields its first
code unit, likewise a non-empty string), own property `"0"` of an object. -/
def getIndex0 (rt : Runtime) (v : JVal) : Except JsError JVal :=
  match v with
  | .undefined => .error ⟨rt.typeErrorMessage v "0"⟩
  | .null => .error ⟨rt.typeErrorMessage v "0"⟩
  | .arr xs => .ok (xs.head?.getD .undefined)
  | .str s => .ok (match s.data with
      | [] => .undefined
      | c :: _ => .str (String.mk [c]))
  | .obj fields => .ok ((lookupField "0" fields).getD .undefined)
  | _ => .ok .undefined

mutual
/-- String conversion of a value interpolated in a template literal.  A
primitive always converts.  An object parsed from JSON converts through
`Object.prototype.toString` unless it has an own property `toString`: that
property is not callable, the inherited `valueOf` returns the object itself,
and the conversion throws a `TypeError`.  An array converts through `join`. -/
def JVal.toStr (rt : Runtime) : JVal → Except JsError String
  | .undefined => .ok "undefined"
  | .null => .ok "null"
  | .bool true => .ok "true"
  | .bool false => .ok "false"
  | .num text => .ok text
  | .str s => .ok s
  | .arr xs => JVal.joinStr rt xs
  | .obj fields =>
    match lookupField "toString" fields with
    | some _ => .error ⟨rt.convertErrorMessage⟩
    | none => .ok "[object Object]"
/-- The method `Array.prototype.join` with the default separator: elements
are converted left to right, `undefined` and `null` give the empty string. -/
def JVal.joinStr (rt : Runtime) : List JVal → Except JsError String
  | [] => .ok ""
  | x :: xs =>
    match (match x with
      | .undefined => Except.ok ""
      | .null => Except.ok ""
      | _ => JVal.toStr rt x) with
    | .error e => .error e
    | .ok s =>
      match xs with
      | [] => .ok s
      | _ :: _ =>
        match JVal.joinStr rt xs with
        | .error e => .error e
        | .ok t => .ok (s ++ "," ++ t)
end

/-! ## The world outside the process -/

/-- The arguments of the one `fetch` call of the program; `body` is the
result of `JSON.stringify`. -/
structure FetchCall where
  url : String
  method : String
  headers : List (String × String)
  body : Option String

/-- What `await fetch(...)` and the reads of the reply can do: the promise is
rejected, or it resolves to a reply with its `ok` flag and `status`, whose
`text()` and `json()` each resolve to a value or reject. -/
inductive FetchOutcome where
  | rejected (e : JsError)
  | resolved (ok : Bool) (status : Nat) (text : Except JsError String)
      (json : Except JsError JVal)

/-- The response a handler gives: the status and the value of its call
`res.status(n).json(body)`; `res.json(body)` alone gives status 200.  (To a
`HEAD` request Express transmits the status and headers of this response
without the body.) -/
structure Response where
  status : Nat
  body : JVal

/-- The outcome of handling one request: the upstream calls issued, in order,
and the response sent. -/
structure Handled where
  calls : List FetchCall
  response : Response

/-- The constant `GEMINI_KEY = process.env.GEMINI_KEY`: a string when the
variable is set, `undefined` when it is not. -/
def geminiKeyValue (envKey : Option String) : JVal :=
  match envKey with
  | some k => .str k
  | none => .undefined

/-! ## `POST /v1/chat/completions` -/

/-- The callback `msg => msg.role === 'user'` run by `messages.filter`, left
to right; a throwing read aborts the whole filter. -/
def filterUser (rt : Runtime) : List JVal → Except JsError (List JVal)
  | [] => .ok []
  | msg :: rest =>
    match getProp rt msg "role" with
    | .error e => .error e
    | .ok role =>
      match filterUser rt rest with
      | .error e => .error e
      | .ok kept => .ok (if role.strictEqStr "user" then msg :: kept else kept)

/-- The object literal `geminiRequest` (lines 75-91). -/
def geminiRequest (text : JVal) : JVal :=
  .obj [
    ("contents", .arr [.obj [("parts", .arr [.obj [("text", text)]])]]),
    ("generationConfig", .obj [
      ("temperature", .num "0.7"),
      ("topK", .num "40"),
      ("topP", .num "0.95"),
      ("maxOutputTokens", .num "2048")])]

/-- The object literal `openAIResponse` (lines 122-142); `t₁` and `t₂` are the
two readings of `Date.now()`. -/
def openAIResponse (model geminiText : JVal) (t₁ t₂ : Nat) : JVal :=
  .obj [
    ("id", .str ("chatcmpl-" ++ toString t₁)),
    ("object", .str "chat.completion"),
    ("created", .num (toString (t₂ / 1000))),
    ("model", model),
    ("choices", .arr [.obj [
      ("index", .num "0"),
      ("message", .obj [("role", .str "assistant"), ("content", geminiText)]),
      ("finish_reason", .str "stop")]]),
    ("usage", .obj [
      ("prompt_tokens", .num "0"),
      ("completion_tokens", .num "0"),
      ("total_tokens", .num "0")])]

/-- The body sent by the `catch` of the chat handler (lines 149-155). -/
def chatErrorBody (e : JsError) : JVal :=
  .obj [("error", .obj [
    ("message", .str e.message),
    ("type", .str "api_error"),
    ("code", .str "processing_error")])]

/-- Lines 62-91 of the `try` block: destructuring with the default for
`model`, the two validations, and the construction of `geminiRequest`.
Returns the model and the upstream request. -/
def chatDerive (rt : Runtime) (body : JVal) : Except JsError (JVal × JVal) :=
  match getProp rt body "messages" with
  | .error e => .error e
  | .ok messages =>
    match getProp rt body "model" with
    | .error e => .error e
    | .ok m =>
      let model := if m.isUndefined then JVal.str "gemini-pro" else m
      if !messages.truthy || !messages.isArray then
        .error ⟨"Missing messages array"⟩
      else
        match filterUser rt messages.elems with
        | .error e => .error e
        | .ok users =>
          let lastUserMessage := users.getLast?.getD .undefined
          if !lastUserMessage.truthy then
            .error ⟨"No user message found"⟩
          else
            match getProp rt lastUserMessage "content" with
            | .error e => .error e
            | .ok content => .ok (model, geminiRequest content)

/-- The arguments of `fetch` (lines 96-105), evaluated in source order: the
template literal of the URL, which throws when `model` cannot be converted
to a string, then the options with `JSON.stringify(geminiRequest)`. -/
def chatFetchCall (rt : Runtime) (envKey : Option String) (model request : JVal) :
    Except JsError FetchCall :=
  match model.toStr rt with
  | .error e => .error e
  | .ok modelText =>
    match (geminiKeyValue envKey).toStr rt with
    | .error e => .error e
    | .ok keyText =>
      .ok {
        url := "https://generativelanguage.googleapis.com/v1/models/"
          ++ modelText ++ ":generateContent?key=" ++ keyText
        method := "POST"
        headers := [("Content-Type", "application/json")]
        body := rt.stringify request }

/-- Lines 112-142 of the `try` block: the checks on the parsed upstream body,
the extraction of the text and the construction of `openAIResponse`. -/
def chatTranslate (rt : Runtime) (model geminiData : JVal) (t₁ t₂ : Nat) :
    Except JsError JVal :=
  match getProp rt geminiData "candidates" with
  | .error e => .error e
  | .ok candidates =>
    if !candidates.truthy then .error ⟨"No response from Gemini"⟩
    else
      match getIndex0 rt candidates with
      | .error e => .error e
      | .ok first =>
        if !first.truthy then .error ⟨"No response from Gemini"⟩
        else
          match getProp rt first "content" with
          | .error e => .error e
          | .ok content =>
            match getProp rt content "parts" with
            | .error e => .error e
            | .ok parts =>
              match getIndex0 rt parts with
              | .error e => .error e
              | .ok part =>
                match getProp rt part "text" with
                | .error e => .error e
                | .ok geminiText => .ok (openAIResponse model geminiText t₁ t₂)

/-- Lines 107-142 of the `try` block: what is done with the outcome of the
`fetch`. -/
def chatAfterFetch (rt : Runtime) (model : JVal) (out : FetchOutcome) (t₁ t₂ : Nat) :
    Except JsError JVal :=
  match out with
  | .rejected e => .error e
  | .resolved ok status text json =>
    if !ok then
      match text with
      | .error e => .error e
      | .ok errorText =>
        .error ⟨"Gemini API error: " ++ toString status ++ " - " ++ errorText⟩
    else
      match json with
      | .error e => .error e
      | .ok geminiData => chatTranslate rt model geminiData t₁ t₂

/-- The `try` block of the chat handler (lines 59-145): the upstream calls it
issues and the value it passes to `res.json`, or the error it throws. -/
def chatTry (rt : Runtime) (envKey : Option String) (upstream : FetchCall → FetchOutcome)
    (t₁ t₂ : Nat) (body : JVal) : List FetchCall × Except JsError JVal :=
  match chatDerive rt body with
  | .error e => ([], .error e)
  | .ok (model, request) =>
    match chatFetchCall rt envKey model request with
    | .error e => ([], .error e)
    | .ok call => ([call], chatAfterFetch rt model (upstream call) t₁ t₂)

/-- The handler of `POST /v1/chat/completions` (lines 58-157), on the parsed
body `req.body`. -/
def chatCompletions (rt : Runtime) (envKey : Option String)
    (upstream : FetchCall → FetchOutcome) (t₁ t₂ : Nat) (body : JVal) : Handled :=
  match chatTry rt envKey upstream t₁ t₂ body with
  | (calls, .ok out) => ⟨calls, ⟨200, out⟩⟩
  | (calls, .error e) => ⟨calls, ⟨500, chatErrorBody e⟩⟩

/-! ## The other routes and the application -/

/-- The handler of `GET /` (lines 11-17); `timestamp` is
`new Date().toISOString()`. -/
def health (timestamp : String) : Handled :=
  ⟨[], ⟨200, .obj [
    ("status", .str "OK"),
    ("message", .str "Gemini OpenAI Proxy is running"),
    ("timestamp", .str timestamp)]⟩⟩

/-- The object literal `models` (lines 25-41); `t₁` and `t₂` are the two
readings of `Date.now()`. -/
def modelsList (t₁ t₂ : Nat) : JVal :=
  .obj [
    ("object", .str "list"),
    ("data", .arr [
      .obj [
        ("id", .str "gemini-pro"),
        ("object", .str "model"),
        ("created", .num (toString (t₁ / 1000))),
        ("owned_by", .str "google")],
      .obj [
        ("id", .str "gemini-1.5-pro"),
        ("object", .str "model"),
        ("created", .num (toString (t₂ / 1000))),
        ("owned_by", .str "google")]])]

/-- The handler of `GET /v1/models` (lines 20-55); nothing in its `try` block
throws. -/
def listModels (t₁ t₂ : Nat) : Handled :=
  ⟨[], ⟨200, modelsList t₁ t₂⟩⟩

/-- The fallback `app.use('*', ...)` (lines 160-167). -/
def notFound (originalUrl : String) : Handled :=
  ⟨[], ⟨404, .obj [("error", .obj [
    ("message", .str ("Route " ++ originalUrl ++ " not found")),
    ("type", .str "not_found")])]⟩⟩

/-- The error-handling middleware (lines 170-178); the error is logged and
not otherwise used. -/
def errorMiddleware (_error : JsError) : Handled :=
  ⟨[], ⟨500, .obj [("error", .obj [
    ("message", .str "Internal server error"),
    ("type", .str "internal_error")])]⟩⟩

/-- An incoming request as the application sees it.  The field `body` is the
outcome of the middleware `express.json()` (line 5) on the request: the value
it stores in `req.body`, or the error it passes to `next` when the body
cannot be read or parsed. -/
structure Request where
  method : String
  path : String
  originalUrl : String
  body : Except JsError JVal

/-- How Express decides that a registered route applies to a request. -/
structure Routing where
  /-- Route verb, request method: whether a route registered with `app.get`
  or `app.post` serves the method. -/
  verbMatches : String → String → Bool
  /-- Route path, request path: whether the path of a route registered with
  `app.get` or `app.post` matches. -/
  pathMatches : String → String → Bool
  /-- Request path: the match against the path `'*'` of `app.use`.  It accepts
  every path, but Express decodes the path while matching and the decoding
  throws on a malformed percent-encoding; the error is passed to `next`. -/
  star : String → Except JsError Unit

/-- The process environment and the outside world during one request. -/
structure World where
  /-- The variable `process.env.GEMINI_KEY`. -/
  envKey : Option String
  /-- The reply of the upstream service to a `fetch`. -/
  upstream : FetchCall → FetchOutcome
  /-- First reading of `Date.now()` in the handler. -/
  t₁ : Nat
  /-- Second reading of `Date.now()` in the handler. -/
  t₂ : Nat
  /-- The value of `new Date().toISOString()`. -/
  isoNow : String

/-- The application: middleware and routes in registration order (lines 5,
11, 20, 58, 160, 170).  An error passed on by `express.json()`, or raised
while the path is matched against `'*'`, skips every remaining route and
reaches the error-handling middleware. -/
def app (rt : Runtime) (routing : Routing) (w : World) (req : Request) : Handled :=
  match req.body with
  | .error e => errorMiddleware e
  | .ok body =>
    if routing.verbMatches "GET" req.method && routing.pathMatches "/" req.path then
      health w.isoNow
    else if routing.verbMatches "GET" req.method
        && routing.pathMatches "/v1/models" req.path then
      listModels w.t₁ w.t₂
    else if routing.verbMatches "POST" req.method
        && routing.pathMatches "/v1/chat/completions" req.path then
      chatCompletions rt w.envKey w.upstream w.t₁ w.t₂ body
    else
      match routing.star req.path with
      | .error e => errorMiddleware e
      | .ok _ => notFound req.originalUrl

/-! ## Node.js and Express 4, for the sample inputs -/

/-- The lower-case hexadecimal digit of a number below 16. -/
def hexDigitChar (n : Nat) : Char :=
  if n < 10 then Char.ofNat (48 + n) else Char.ofNat (87 + n)

/-- One character inside a JSON string as `JSON.stringify` writes it: the
quotation mark, the backslash and the control characters are escaped. -/
def jsonQuoteChar (c : Char) : String :=
  if c.toNat = 34 then String.mk [Char.ofNat 92, Char.ofNat 34]
  else if c.toNat = 92 then String.mk [Char.ofNat 92, Char.ofNat 92]
  else if c.toNat = 8 then String.mk [Char.ofNat 92, Char.ofNat 98]
  else if c.toNat = 12 then String.mk [Char.ofNat 92, Char.ofNat 102]
  else if c.toNat = 10 then String.mk [Char.ofNat 92, Char.ofNat 110]
  else if c.toNat = 13 then String.mk [Char.ofNat 92, Char.ofNat 114]
  else if c.toNat = 9 then String.mk [Char.ofNat 92, Char.ofNat 116]
  else if c.toNat < 32 then
    String.mk [Char.ofNat 92, Char.ofNat 117, Char.ofNat 48, Char.ofNat 48,
      hexDigitChar (c.toNat / 16), hexDigitChar (c.toNat % 16)]
  else String.singleton c

/-- A string as `JSON.stringify` writes it. -/
def jsonQuote (s : String) : String :=
  String.singleton (Char.ofNat 34) ++ String.join (s.data.map jsonQuoteChar)
    ++ String.singleton (Char.ofNat 34)

mutual
/-- The function `JSON.stringify` on the values of `JVal`, none of which has a
callable `toJSON`: `undefined` has no text, a number that is not finite is
written `null`. -/
def jsonStringify : JVal → Option String
  | .undefined => none
  | .null => some "null"
  | .bool true => some "true"
  | .bool false => some "false"
  | .num text =>
    some (if text = "NaN" ∨ text = "Infinity" ∨ text = "-Infinity" then "null" else text)
  | .str s => some (jsonQuote s)
  | .arr xs => some ("[" ++ String.intercalate "," (jsonElements xs) ++ "]")
  | .obj fields =>
    some (String.singleton (Char.ofNat 123) ++ String.intercalate "," (jsonMembers fields)
      ++ String.singleton (Char.ofNat 125))
/-- The elements of an array as `JSON.stringify` writes them: an `undefined`
element is written `null`. -/
def jsonElements : List JVal → List String
  | [] => []
  | x :: xs => (jsonStringify x).getD "null" :: jsonElements xs
/-- The members of an object as `JSON.stringify` writes them: a property whose
value is `undefined` is left out. -/
def jsonMembers : List (String × JVal) → List String
  | [] => []
  | (k, v) :: rest =>
    match jsonStringify v with
    | none => jsonMembers rest
    | some text => (jsonQuote k ++ ":" ++ text) :: jsonMembers rest
end

/-- The word V8 uses for `undefined` and `null` in its messages. -/
def nullishWord : JVal → String
  | .null => "null"
  | _ => "undefined"

/-- Node.js (V8 of Node 16.9 and later): `JSON.stringify` and the messages of
the `TypeError`s the program can raise.  The property `messages` is only read
by the destructuring of `req.body` (line 62). -/
def sampleRuntime : Runtime where
  stringify := jsonStringify
  typeErrorMessage := fun v k =>
    if k = "messages" then
      "Cannot destructure property \x27messages\x27 of \x27req.body\x27 as it is "
        ++ nullishWord v ++ "."
    else
      "Cannot read properties of " ++ nullishWord v ++ " (reading \x27" ++ k ++ "\x27)"
  convertErrorMessage := "Cannot convert object to primitive value"

/-- The value of a hexadecimal digit. -/
def hexValue (c : Char) : Option Nat :=
  if 48 ≤ c.toNat ∧ c.toNat ≤ 57 then some (c.toNat - 48)
  else if 97 ≤ c.toNat ∧ c.toNat ≤ 102 then some (c.toNat - 87)
  else if 65 ≤ c.toNat ∧ c.toNat ≤ 70 then some (c.toNat - 55)
  else none

/-- A path split at its percent escapes: `none` for a plain character,
`some b` for an escape `%XX` of the byte `b`; no result when a `%` is not
followed by two hexadecimal digits. -/
def percentTokens : List Char → Option (List (Option Nat))
  | [] => some []
  | c :: rest =>
    if c.toNat = 37 then
      match rest with
      | h₁ :: h₂ :: rest₂ =>
        match hexValue h₁, hexValue h₂, percentTokens rest₂ with
        | some a, some b, some tokens => some (some (16 * a + b) :: tokens)
        | _, _, _ => none
      | _ => none
    else
      match percentTokens rest with
      | some tokens => some (none :: tokens)
      | none => none

/-- A continuation byte of UTF-8. -/
def isContinuation (b : Nat) : Bool := decide (128 ≤ b ∧ b < 192)

/-- Whether the escaped bytes of a tokenised path are, run by run, the UTF-8
encoding of code points, each byte of a multi-byte encoding being itself an
escape: the condition under which `decodeURIComponent` does not throw. -/
def escapesDecode : List (Option Nat) → Bool
  | [] => true
  | none :: rest => escapesDecode rest
  | some b :: rest =>
    if b < 128 then escapesDecode rest
    else if 194 ≤ b ∧ b < 224 then
      match rest with
      | some c₁ :: rest₁ => isContinuation c₁ && escapesDecode rest₁
      | _ => false
    else if 224 ≤ b ∧ b < 240 then
      match rest with
      | some c₁ :: some c₂ :: rest₂ =>
        isContinuation c₁ && isContinuation c₂
          && decide (2048 ≤ (b - 224) * 4096 + (c₁ - 128) * 64 + (c₂ - 128))
          && !decide (55296 ≤ (b - 224) * 4096 + (c₁ - 128) * 64 + (c₂ - 128)
                ∧ (b - 224) * 4096 + (c₁ - 128) * 64 + (c₂ - 128) ≤ 57343)
          && escapesDecode rest₂
      | _ => false
    else if 240 ≤ b ∧ b < 245 then
      match rest with
      | some c₁ :: some c₂ :: some c₃ :: rest₃ =>
        isContinuation c₁ && isContinuation c₂ && isContinuation c₃
          && decide (65536 ≤ (b - 240) * 262144 + (c₁ - 128) * 4096 + (c₂ - 128) * 64
                + (c₃ - 128))
          && decide ((b - 240) * 262144 + (c₁ - 128) * 4096 + (c₂ - 128) * 64 + (c₃ - 128)
                ≤ 1114111)
          && escapesDecode rest₃
      | _ => false
    else false

/-- Whether `decodeURIComponent(path)` returns. -/
def decodes (path : String) : Bool :=
  match percentTokens path.data with
  | some tokens => escapesDecode tokens
  | none => false

/-- A string with its letters `A` to `Z` in lower case. -/
def lowerAscii (s : String) : String :=
  String.mk (s.data.map Char.toLower)

/-- Express 4 with its default settings, for the routes of `index.js`.  A
route registered with `app.get` also serves `HEAD`.  The literal paths are
matched without regard to case and with an optional trailing slash.  The
match against `'*'` decodes the whole path with `decodeURIComponent`. -/
def express4Routing : Routing where
  verbMatches := fun verb method =>
    decide (method = verb) || (decide (verb = "GET") && decide (method = "HEAD"))
  pathMatches := fun route path =>
    if route = "/" then decide (path = "/" ∨ path = "")
    else decide (lowerAscii path = route ∨ lowerAscii path = route ++ "/")
  star := fun path =>
    if decodes path then .ok ()
    else .error ⟨"Failed to decode param \x27" ++ path ++ "\x27"⟩

/-! ## Vocabulary of the specification -/

/-- The values `undefined` and `null`, the only ones whose properties cannot
be read. -/
def JVal.nullish : JVal → Bool
  | .undefined => true
  | .null => true
  | _ => false

/-- The value of property `k` of `v`, `undefined` when `v` has no such
property. -/
def field (v : JVal) (k : String) : JVal :=
  match v with
  | .obj fields => (lookupField k fields).getD .undefined
  | _ => .undefined

/-- A message with role "user": an object whose `role` is the string
`"user"`. -/
def isUserMessage : JVal → Bool
  | .obj fields =>
    match lookupField "role" fields with
    | some (.str r) => decide (r = "user")
    | _ => false
  | _ => false

/-- In the sequence `ms`, `m` is the last message with role "user". -/
def IsLastUser (ms : List JVal) (m : JVal) : Prop :=
  ∃ before after, ms = before ++ m :: after ∧ isUserMessage m = true ∧
    ∀ x ∈ after, isUserMessage x = false

/-- The text carried by an upstream request: `contents[0].parts[0].text`. -/
def requestText (request : JVal) : Option JVal :=
  match field request "contents" with
  | .arr (.obj block :: _) =>
    match lookupField "parts" block with
    | some (.arr (.obj part :: _)) => lookupField "text" part
    | _ => none
  | _ => none

/-- The model name of a request: its `model` when given, the fixed default
otherwise. -/
def modelOf (body : JVal) : JVal :=
  match field body "model" with
  | .undefined => .str "gemini-pro"
  | m => m

/-- The `messages` of the body are a sequence of messages (none of them
`null`) and `m` is the last one with role "user". -/
def ValidMessages (body m : JVal) : Prop :=
  ∃ ms, field body "messages" = .arr ms ∧ (∀ x ∈ ms, x.nullish = false) ∧ IsLastUser ms m

/-- The `model` of the body is what the data model allows: absent, or a
string. -/
def NamedModel (body : JVal) : Prop :=
  field body "model" = .undefined ∨ ∃ name, field body "model" = .str name

/-- A valid request body whose last message with role "user" is `m`: valid
`messages`, and a `model` that is absent or a string. -/
def ValidRequest (body m : JVal) : Prop :=
  ValidMessages body m ∧ NamedModel body

/-- The key as it appears in the URL: the variable when it is set, the text
`undefined` when it is not. -/
def keyText (envKey : Option String) : String :=
  match envKey with
  | some key => key
  | none => "undefined"

/-- The call of lines 96-105 for a model that is the string `name`. -/
def namedCall (rt : Runtime) (envKey : Option String) (name : String) (request : JVal) :
    FetchCall where
  url := "https://generativelanguage.googleapis.com/v1/models/"
    ++ name ++ ":generateContent?key=" ++ keyText envKey
  method := "POST"
  headers := [("Content-Type", "application/json")]
  body := rt.stringify request

/-- A request body without a user message: `messages` is absent, is not a
sequence, is the empty sequence, or is a sequence none of whose messages has
role "user". -/
def LacksUserMessage (body : JVal) : Prop :=
  field body "messages" = .undefined
  ∨ (field body "messages").isArray = false
  ∨ field body "messages" = .arr []
  ∨ ∃ ms, field body "messages" = .arr ms ∧ ∀ x ∈ ms, isUserMessage x = false

/-- The parsed upstream body `d` has a first candidate whose first content
part has text `t`. -/
def FirstCandidateText (d t : JVal) : Prop :=
  ∃ c cs p ps, field d "candidates" = .arr (c :: cs)
    ∧ field (field c "content") "parts" = .arr (p :: ps)
    ∧ p.nullish = false ∧ field p "text" = t

/-- The parsed upstream body `d` lacks a non-empty candidate list: its
`candidates` is absent (or `null`), or present with no first candidate (an
empty list, or a list whose first entry is `null`). -/
def LacksCandidate (d : JVal) : Prop :=
  field d "candidates" = .undefined
  ∨ field d "candidates" = .null
  ∨ field d "candidates" = .arr []
  ∨ ∃ cs, field d "candidates" = .arr (.null :: cs)

/-- The parsed upstream body `d` contains at least one candidate: its
`candidates` has an entry at index 0. -/
def HasFirstCandidate (d : JVal) : Prop :=
  ∃ first, first.truthy = true ∧
    ((∃ cs, field d "candidates" = .arr (first :: cs))
      ∨ ∃ fields, field d "candidates" = .obj fields ∧ lookupField "0" fields = some first)

/-! ## Sample inputs -/

/-- A conversation of four messages, two of them from the user. -/
def sampleMessages : List JVal :=
  [.obj [("role", .str "user"), ("content", .str "first question")],
   .obj [("role", .str "assistant"), ("content", .str "an answer")],
   .obj [("role", .str "user"), ("content", .str "second question")],
   .obj [("role", .str "system"), ("content", .str "be brief")]]

/-- A request body carrying `sampleMessages` and no `model`. -/
def sampleBody : JVal := .obj [("messages", .arr sampleMessages)]

/-- The last user message of `sampleMessages`. -/
def sampleLastUser : JVal :=
  .obj [("role", .str "user"), ("content", .str "second question")]

/-- A request body with an assistant message only. -/
def assistantOnlyBody : JVal :=
  .obj [("messages", .arr [.obj [("role", .str "assistant"), ("content", .str "hi")]])]

/-- The upstream body of the specification's example, with text "hello". -/
def helloBody : JVal :=
  .obj [("candidates", .arr [.obj [("content",
    .obj [("parts", .arr [.obj [("text", .str "hello")]])])]])]

/-- An upstream service that answers every call with status 200 and the
body `helloBody`. -/
def helloUpstream : FetchCall → FetchOutcome :=
  fun _ => .resolved true 200 (.ok "") (.ok helloBody)

/-- An upstream service that answers every call with status 429 and the
text "quota exceeded". -/
def busyUpstream : FetchCall → FetchOutcome :=
  fun _ => .resolved false 429 (.ok "quota exceeded") (.error ⟨"not JSON"⟩)

/-- An upstream service that answers every call with status 200 and an
empty candidate list. -/
def emptyUpstream : FetchCall → FetchOutcome :=
  fun _ => .resolved true 200 (.ok "") (.ok (.obj [("candidates", .arr [])]))

/-- A request body with another model, another field and one message, whose
content is that of the last user message of `sampleBody`. -/
def otherBody : JVal :=
  .obj [("model", .str "gemini-1.5-pro"), ("temperature", .num "1"),
    ("messages", .arr [.obj [("content", .str "second question"), ("role", .str "user")]])]

/-- The message of `otherBody`. -/
def otherLastUser : JVal :=
  .obj [("content", .str "second question"), ("role", .str "user")]

/-- A world in which the key is set and the upstream answers "hello". -/
def sampleWorld : World where
  envKey := some "secret"
  upstream := helloUpstream
  t₁ := 1700000000123
  t₂ := 1700000000456
  isoNow := "2023-11-14T22:13:20.123Z"

/-- The request `GET /v1/unknown`, without a body. -/
def unknownRequest : Request where
  method := "GET"
  path := "/v1/unknown"
  originalUrl := "/v1/unknown"
  body := .ok (.obj [])

/-- The request `POST /v1/unknown` whose body `express.json()` cannot parse. -/
def brokenJsonRequest : Request where
  method := "POST"
  path := "/v1/unknown"
  originalUrl := "/v1/unknown"
  body := .error ⟨"Unexpected token b in JSON at position 1"⟩

/-- The request `POST /v1/chat/completions` whose body `express.json()`
cannot parse. -/
def brokenChatRequest : Request where
  method := "POST"
  path := "/v1/chat/completions"
  originalUrl := "/v1/chat/completions"
  body := .error ⟨"Unexpected token b in JSON at position 1"⟩

/-- The request `POST /v1/chat/completions` with the body `assistantOnlyBody`. -/
def assistantOnlyRequest : Request where
  method := "POST"
  path := "/v1/chat/completions"
  originalUrl := "/v1/chat/completions"
  body := .ok assistantOnlyBody

/-- The request `GET /%E0%A4%A`, whose path ends in a truncated percent
escape, without a body. -/
def badEscapeRequest : Request where
  method := "GET"
  path := "/%E0%A4%A"
  originalUrl := "/%E0%A4%A"
  body := .ok (.obj [])

/-! ## Lemmas on the embedding -/

theorem getProp_eq_field (rt : Runtime) (v : JVal) (k : String) (h : v.nullish = false) :
    getProp rt v k = .ok (field v k) := by
  cases v <;> simp_all [getProp, field, JVal.nullish]

theorem role_test_eq (m : JVal) :
    (field m "role").strictEqStr "user" = isUserMessage m := by
  cases m <;> simp [field, isUserMessage, JVal.strictEqStr]
  rename_i fields
  cases h : lookupField "role" fields with
  | none => simp [JVal.strictEqStr]
  | some r => cases r <;> simp [JVal.strictEqStr]

theorem filterUser_eq_filter (rt : Runtime) (ms : List JVal)
    (h : ∀ x ∈ ms, x.nullish = false) :
    filterUser rt ms = .ok (ms.filter isUserMessage) := by
  induction ms with
  | nil => rfl
  | cons m rest ih =>
    have hm : m.nullish = false := h m (List.mem_cons_self _ _)
    have hrest : ∀ x ∈ rest, x.nullish = false :=
      fun x hx => h x (List.mem_cons_of_mem _ hx)
    simp only [filterUser, getProp_eq_field rt m "role" hm, ih hrest, role_test_eq,
      List.filter_cons]

theorem filterUser_ok_not_nullish (rt : Runtime) (ms users : List JVal)
    (h : filterUser rt ms = .ok users) : ∀ x ∈ ms, x.nullish = false := by
  induction ms generalizing users with
  | nil => intro x hx; cases hx
  | cons m rest ih =>
    have hm : m.nullish = false := by
      cases m <;> simp_all [filterUser, getProp, JVal.nullish]
    rw [filterUser, getProp_eq_field rt m "role" hm] at h
    cases hr : filterUser rt rest with
    | error e => simp [hr] at h
    | ok kept =>
      intro x hx
      rcases List.mem_cons.mp hx with rfl | hx
      · exact hm
      · exact ih kept hr x hx

theorem isUserMessage_truthy (m : JVal) (h : isUserMessage m = true) : m.truthy = true := by
  cases m <;> simp_all [isUserMessage, JVal.truthy]

theorem isUserMessage_not_nullish (m : JVal) (h : isUserMessage m = true) :
    m.nullish = false := by
  cases m <;> simp_all [isUserMessage, JVal.nullish]

theorem filter_getLast_of_isLastUser (ms : List JVal) (m : JVal) (h : IsLastUser ms m) :
    (ms.filter isUserMessage).getLast? = some m := by
  obtain ⟨before, after, rfl, hm, hafter⟩ := h
  have h0 : after.filter isUserMessage = [] := by
    rw [List.filter_eq_nil_iff]
    intro x hx
    simp [hafter x hx]
  rw [List.filter_append, List.filter_cons, hm, h0]
  simp

theorem requestText_geminiRequest (text : JVal) :
    requestText (geminiRequest text) = some text := by
  simp [requestText, geminiRequest, field, lookupField]

theorem field_arr_not_nullish (body : JVal) (k : String) (ms : List JVal)
    (h : field body k = .arr ms) : body.nullish = false := by
  cases body <;> simp_all [field, JVal.nullish]

theorem modelOf_eq (body : JVal) :
    (if (field body "model").isUndefined then JVal.str "gemini-pro" else field body "model")
      = modelOf body := by
  unfold modelOf
  cases field body "model" <;> simp [JVal.isUndefined]

theorem chatDerive_arr (rt : Runtime) (body : JVal) (ms : List JVal)
    (hmsgs : field body "messages" = .arr ms) :
    chatDerive rt body =
      match filterUser rt ms with
      | .error e => .error e
      | .ok users =>
        if !(users.getLast?.getD .undefined).truthy then .error ⟨"No user message found"⟩
        else
          match getProp rt (users.getLast?.getD .undefined) "content" with
          | .error e => .error e
          | .ok content => .ok (modelOf body, geminiRequest content) := by
  have hb := field_arr_not_nullish body "messages" ms hmsgs
  simp only [chatDerive, getProp_eq_field rt body _ hb, hmsgs, modelOf_eq, JVal.truthy,
    JVal.isArray, JVal.elems]
  simp

theorem chatDerive_valid (rt : Runtime) (body m : JVal) (h : ValidMessages body m) :
    chatDerive rt body = .ok (modelOf body, geminiRequest (field m "content")) := by
  obtain ⟨ms, hmsgs, hnn, hlast⟩ := h
  have hm : isUserMessage m = true := by
    obtain ⟨_, _, _, hm, _⟩ := hlast
    exact hm
  rw [chatDerive_arr rt body ms hmsgs, filterUser_eq_filter rt ms hnn]
  simp only [filter_getLast_of_isLastUser ms m hlast, Option.getD_some,
    isUserMessage_truthy m hm, getProp_eq_field rt m _ (isUserMessage_not_nullish m hm)]
  simp

theorem chatFetchCall_body (rt : Runtime) (envKey : Option String) (model request : JVal)
    (c : FetchCall) (h : chatFetchCall rt envKey model request = .ok c) :
    c.body = rt.stringify request ∧ c.method = "POST" := by
  unfold chatFetchCall at h
  split at h
  · cases h
  · split at h
    · cases h
    · injection h with h
      subst h
      exact ⟨rfl, rfl⟩

theorem toStr_key (rt : Runtime) (envKey : Option String) :
    (geminiKeyValue envKey).toStr rt = .ok (keyText envKey) := by
  cases envKey <;> simp [geminiKeyValue, keyText, JVal.toStr]

theorem chatFetchCall_named (rt : Runtime) (envKey : Option String) (name : String)
    (request : JVal) :
    chatFetchCall rt envKey (.str name) request = .ok (namedCall rt envKey name request) := by
  simp [chatFetchCall, toStr_key, JVal.toStr, namedCall]

theorem modelOf_named (body : JVal) (h : NamedModel body) :
    ∃ name, modelOf body = .str name := by
  rcases h with h | ⟨name, h⟩
  · exact ⟨"gemini-pro", by simp [modelOf, h]⟩
  · exact ⟨name, by simp [modelOf, h]⟩

theorem chatCompletions_mem_calls (rt : Runtime) (envKey : Option String)
    (upstream : FetchCall → FetchOutcome) (t₁ t₂ : Nat) (body : JVal) (c : FetchCall)
    (h : c ∈ (chatCompletions rt envKey upstream t₁ t₂ body).calls) :
    ∃ model request, chatDerive rt body = .ok (model, request)
      ∧ chatFetchCall rt envKey model request = .ok c := by
  unfold chatCompletions chatTry at h
  cases hd : chatDerive rt body with
  | error e => simp [hd] at h
  | ok pair =>
    obtain ⟨model, request⟩ := pair
    cases hf : chatFetchCall rt envKey model request with
    | error e => simp [hd, hf] at h
    | ok call =>
      simp only [hd, hf] at h
      cases ha : chatAfterFetch rt model (upstream call) t₁ t₂ <;>
        simp only [ha, List.mem_singleton] at h <;>
        exact ⟨model, request, rfl, by rw [h, hf]⟩

theorem chatCompletions_of_derive_error (rt : Runtime) (envKey : Option String)
    (upstream : FetchCall → FetchOutcome) (t₁ t₂ : Nat) (body : JVal) (e : JsError)
    (h : chatDerive rt body = .error e) :
    chatCompletions rt envKey upstream t₁ t₂ body = ⟨[], ⟨500, chatErrorBody e⟩⟩ := by
  unfold chatCompletions chatTry
  rw [h]

theorem chatDerive_not_array (rt : Runtime) (body : JVal) (hb : body.nullish = false)
    (h : (field body "messages").isArray = false) :
    chatDerive rt body = .error ⟨"Missing messages array"⟩ := by
  simp [chatDerive, getProp_eq_field rt body _ hb, h]

theorem chatDerive_nullish (rt : Runtime) (body : JVal) (hb : body.nullish = true) :
    chatDerive rt body = .error ⟨rt.typeErrorMessage body "messages"⟩ := by
  cases body <;> simp_all [chatDerive, getProp, JVal.nullish]

theorem chatDerive_no_user (rt : Runtime) (body : JVal) (ms : List JVal)
    (hmsgs : field body "messages" = .arr ms) (hno : ∀ x ∈ ms, isUserMessage x = false) :
    ∃ e, chatDerive rt body = .error e
      ∧ ((∀ x ∈ ms, x.nullish = false) → e = ⟨"No user message found"⟩) := by
  rw [chatDerive_arr rt body ms hmsgs]
  cases hf : filterUser rt ms with
  | error e =>
    refine ⟨e, rfl, fun hnn => ?_⟩
    rw [filterUser_eq_filter rt ms hnn] at hf
    cases hf
  | ok users =>
    have hnn := filterUser_ok_not_nullish rt ms users hf
    rw [filterUser_eq_filter rt ms hnn] at hf
    have h0 : ms.filter isUserMessage = [] := by
      rw [List.filter_eq_nil_iff]
      intro x hx
      simp [hno x hx]
    rw [h0] at hf
    injection hf with hf
    subst hf
    exact ⟨⟨"No user message found"⟩, by simp [JVal.truthy], fun _ => rfl⟩

theorem chatDerive_lacks_user (rt : Runtime) (body : JVal) (h : LacksUserMessage body) :
    ∃ e, chatDerive rt body = .error e
      ∧ (body.nullish = false → (∀ x ∈ (field body "messages").elems, x.nullish = false) →
          ((field body "messages").isArray = false → e = ⟨"Missing messages array"⟩)
          ∧ ((field body "messages").isArray = true → e = ⟨"No user message found"⟩)) := by
  have notArr : (field body "messages").isArray = false →
      ∃ e, chatDerive rt body = .error e
      ∧ (body.nullish = false → (∀ x ∈ (field body "messages").elems, x.nullish = false) →
          ((field body "messages").isArray = false → e = ⟨"Missing messages array"⟩)
          ∧ ((field body "messages").isArray = true → e = ⟨"No user message found"⟩)) := by
    intro hna
    cases hb : body.nullish with
    | true => exact ⟨_, chatDerive_nullish rt body hb, fun h => by cases h⟩
    | false =>
      exact ⟨_, chatDerive_not_array rt body hb hna,
        fun _ _ => ⟨fun _ => rfl, fun ha => by rw [hna] at ha; cases ha⟩⟩
  have isArr : ∀ ms, field body "messages" = .arr ms → (∀ x ∈ ms, isUserMessage x = false) →
      ∃ e, chatDerive rt body = .error e
      ∧ (body.nullish = false → (∀ x ∈ (field body "messages").elems, x.nullish = false) →
          ((field body "messages").isArray = false → e = ⟨"Missing messages array"⟩)
          ∧ ((field body "messages").isArray = true → e = ⟨"No user message found"⟩)) := by
    intro ms hmsgs hno
    obtain ⟨e, he, hmsg⟩ := chatDerive_no_user rt body ms hmsgs hno
    refine ⟨e, he, fun _ hnn => ⟨fun hna => ?_, fun _ => hmsg ?_⟩⟩
    · rw [hmsgs] at hna
      cases hna
    · rw [hmsgs] at hnn
      exact hnn
  rcases h with h | h | h | ⟨ms, hmsgs, hno⟩
  · exact notArr (by rw [h]; rfl)
  · exact notArr h
  · exact isArr [] h (fun x hx => by cases hx)
  · exact isArr ms hmsgs hno

theorem chatCompletions_valid (rt : Runtime) (envKey : Option String)
    (upstream : FetchCall → FetchOutcome) (t₁ t₂ : Nat) (body m : JVal) (name : String)
    (h : ValidMessages body m) (hname : modelOf body = .str name) :
    chatCompletions rt envKey upstream t₁ t₂ body =
      match chatAfterFetch rt (.str name)
        (upstream (namedCall rt envKey name (geminiRequest (field m "content")))) t₁ t₂ with
      | .ok out =>
        ⟨[namedCall rt envKey name (geminiRequest (field m "content"))], ⟨200, out⟩⟩
      | .error e =>
        ⟨[namedCall rt envKey name (geminiRequest (field m "content"))],
          ⟨500, chatErrorBody e⟩⟩ := by
  unfold chatCompletions chatTry
  rw [chatDerive_valid rt body m h, hname]
  simp only [chatFetchCall_named]
  generalize chatAfterFetch rt (.str name)
    (upstream (namedCall rt envKey name (geminiRequest (field m "content")))) t₁ t₂ = r
  cases r <;> rfl

theorem chatCompletions_valid_calls (rt : Runtime) (envKey : Option String)
    (upstream : FetchCall → FetchOutcome) (t₁ t₂ : Nat) (body m : JVal) (name : String)
    (h : ValidMessages body m) (hname : modelOf body = .str name) :
    (chatCompletions rt envKey upstream t₁ t₂ body).calls
      = [namedCall rt envKey name (geminiRequest (field m "content"))] := by
  rw [chatCompletions_valid rt envKey upstream t₁ t₂ body m name h hname]
  generalize chatAfterFetch rt (.str name)
    (upstream (namedCall rt envKey name (geminiRequest (field m "content")))) t₁ t₂ = r
  cases r <;> rfl

theorem upstream_of_calls (rt : Runtime) (envKey : Option String)
    (upstream : FetchCall → FetchOutcome) (t₁ t₂ : Nat) (body m : JVal) (name : String)
    (out : FetchOutcome) (h : ValidMessages body m) (hname : modelOf body = .str name)
    (hup : ∀ c ∈ (chatCompletions rt envKey upstream t₁ t₂ body).calls, upstream c = out) :
    upstream (namedCall rt envKey name (geminiRequest (field m "content"))) = out := by
  apply hup
  rw [chatCompletions_valid_calls rt envKey upstream t₁ t₂ body m name h hname]
  exact List.mem_singleton_self _

theorem truthy_arr (xs : List JVal) : (JVal.arr xs).truthy = true := rfl

theorem truthy_obj (fields : List (String × JVal)) : (JVal.obj fields).truthy = true := rfl

theorem truthy_undefined : JVal.undefined.truthy = false := rfl

theorem truthy_null : JVal.null.truthy = false := rfl

theorem field_ne_undefined_not_nullish (v : JVal) (k : String)
    (h : field v k ≠ .undefined) : v.nullish = false := by
  cases v <;> simp_all [field, JVal.nullish]

theorem chatTranslate_first_text (rt : Runtime) (model d t : JVal) (t₁ t₂ : Nat)
    (h : FirstCandidateText d t) :
    chatTranslate rt model d t₁ t₂ = .ok (openAIResponse model t t₁ t₂) := by
  obtain ⟨c, cs, p, ps, hc, hp, hpn, ht⟩ := h
  have hd : d.nullish = false := field_arr_not_nullish d _ _ hc
  have hcontent : (field c "content").nullish = false := field_arr_not_nullish _ _ _ hp
  have hcn : c.nullish = false :=
    field_ne_undefined_not_nullish c "content" (by
      intro hu
      rw [hu] at hcontent
      cases hcontent)
  have hct : c.truthy = true := by
    cases c <;> simp_all [field, JVal.nullish, JVal.truthy]
  simp [chatTranslate, getProp_eq_field rt d _ hd, hc, truthy_arr, getIndex0, hct,
    getProp_eq_field rt c _ hcn, getProp_eq_field rt _ "parts" hcontent, hp,
    getProp_eq_field rt p _ hpn, ht]

theorem chatTranslate_lacks (rt : Runtime) (model d : JVal) (t₁ t₂ : Nat)
    (h : LacksCandidate d) :
    ∃ e, chatTranslate rt model d t₁ t₂ = .error e
      ∧ (d.nullish = false → e = ⟨"No response from Gemini"⟩) := by
  cases hd : d.nullish with
  | true =>
    refine ⟨⟨rt.typeErrorMessage d "candidates"⟩, ?_, fun h => by cases h⟩
    cases d <;> simp_all [chatTranslate, getProp, JVal.nullish]
  | false =>
    refine ⟨⟨"No response from Gemini"⟩, ?_, fun _ => rfl⟩
    rcases h with h | h | h | ⟨cs, h⟩
    · simp [chatTranslate, getProp_eq_field rt d _ hd, h, JVal.truthy]
    · simp [chatTranslate, getProp_eq_field rt d _ hd, h, JVal.truthy]
    · simp [chatTranslate, getProp_eq_field rt d _ hd, h, JVal.truthy, getIndex0]
    · simp [chatTranslate, getProp_eq_field rt d _ hd, h, JVal.truthy, getIndex0]

theorem chatTranslate_ok_has_first (rt : Runtime) (model d out : JVal) (t₁ t₂ : Nat)
    (h : chatTranslate rt model d t₁ t₂ = .ok out) : HasFirstCandidate d := by
  have hd : d.nullish = false := by
    cases d <;> simp_all [chatTranslate, getProp, JVal.nullish]
  rw [chatTranslate, getProp_eq_field rt d _ hd] at h
  simp only at h
  cases hc : field d "candidates" with
  | undefined => simp [hc, JVal.truthy] at h
  | null => simp [hc, JVal.truthy] at h
  | bool b => cases b <;> simp [hc, JVal.truthy, getIndex0] at h
  | num text =>
    rw [hc] at h
    by_cases hq : (JVal.num text).truthy = true
    · simp [hq, getIndex0, truthy_undefined] at h
    · simp [hq] at h
  | str s =>
    rw [hc] at h
    by_cases hs : s = "" <;> simp [JVal.truthy, getIndex0, hs] at h
    cases hdata : s.data with
    | nil => simp [hdata, JVal.truthy] at h
    | cons ch rest =>
      simp [hdata, JVal.truthy, getProp] at h
      split at h <;> cases h
  | arr xs =>
    cases xs with
    | nil => simp [hc, truthy_arr, truthy_undefined, getIndex0] at h
    | cons first cs =>
      refine ⟨first, ?_, Or.inl ⟨cs, hc⟩⟩
      by_contra hft
      have hft2 : first.truthy = false := by simpa using hft
      simp [hc, truthy_arr, getIndex0, hft2] at h
  | obj fields =>
    cases hl : lookupField "0" fields with
    | none => simp [hc, truthy_obj, truthy_undefined, getIndex0, hl] at h
    | some first =>
      refine ⟨first, ?_, Or.inr ⟨fields, hc, hl⟩⟩
      by_contra hft
      have hft2 : first.truthy = false := by simpa using hft
      simp [hc, truthy_obj, getIndex0, hl, hft2] at h

theorem chatTranslate_ok_form (rt : Runtime) (model d out : JVal) (t₁ t₂ : Nat)
    (h : chatTranslate rt model d t₁ t₂ = .ok out) :
    ∃ text, out = openAIResponse model text t₁ t₂ := by
  unfold chatTranslate at h
  repeat' split at h
  all_goals first
    | (injection h with h; exact ⟨_, h.symm⟩)
    | cases h

theorem chatAfterFetch_ok_form (rt : Runtime) (model out : JVal) (o : FetchOutcome)
    (t₁ t₂ : Nat) (h : chatAfterFetch rt model o t₁ t₂ = .ok out) :
    ∃ text, out = openAIResponse model text t₁ t₂ := by
  unfold chatAfterFetch at h
  repeat' split at h
  all_goals first
    | exact chatTranslate_ok_form rt model _ out t₁ t₂ h
    | cases h

theorem chatTry_ok_form (rt : Runtime) (envKey : Option String)
    (upstream : FetchCall → FetchOutcome) (t₁ t₂ : Nat) (body out : JVal)
    (h : (chatTry rt envKey upstream t₁ t₂ body).2 = .ok out) :
    ∃ model text, out = openAIResponse model text t₁ t₂ := by
  unfold chatTry at h
  split at h
  · cases h
  · rename_i model request _
    split at h
    · cases h
    · obtain ⟨text, ht⟩ := chatAfterFetch_ok_form rt model out _ t₁ t₂ h
      exact ⟨model, text, ht⟩

theorem chatCompletions_response (rt : Runtime) (envKey : Option String)
    (upstream : FetchCall → FetchOutcome) (t₁ t₂ : Nat) (body : JVal) :
    (chatCompletions rt envKey upstream t₁ t₂ body).response =
      match (chatTry rt envKey upstream t₁ t₂ body).2 with
      | .ok out => ⟨200, out⟩
      | .error e => ⟨500, chatErrorBody e⟩ := by
  unfold chatCompletions
  rcases chatTry rt envKey upstream t₁ t₂ body with ⟨calls, r⟩
  cases r <;> rfl

theorem chatCompletions_answers (rt : Runtime) (envKey : Option String)
    (upstream : FetchCall → FetchOutcome) (t₁ t₂ : Nat) (body : JVal) :
    ((chatCompletions rt envKey upstream t₁ t₂ body).response.status = 200
        ∧ ∃ model text, (chatCompletions rt envKey upstream t₁ t₂ body).response.body
            = openAIResponse model text t₁ t₂)
      ∨ ((chatCompletions rt envKey upstream t₁ t₂ body).response.status = 500
        ∧ ∃ msg, (chatCompletions rt envKey upstream t₁ t₂ body).response.body
            = .obj [("error", .obj [("message", .str msg), ("type", .str "api_error"),
                ("code", .str "processing_error")])]) := by
  rw [chatCompletions_response]
  cases h : (chatTry rt envKey upstream t₁ t₂ body).2 with
  | ok out =>
    obtain ⟨model, text, ho⟩ := chatTry_ok_form rt envKey upstream t₁ t₂ body out h
    exact Or.inl ⟨rfl, model, text, ho⟩
  | error e => exact Or.inr ⟨rfl, e.message, rfl⟩

theorem sampleLastUser_isLast : IsLastUser sampleMessages sampleLastUser :=
  ⟨[.obj [("role", .str "user"), ("content", .str "first question")],
    .obj [("role", .str "assistant"), ("content", .str "an answer")]],
   [.obj [("role", .str "system"), ("content", .str "be brief")]],
   rfl, by decide, by decide⟩

theorem sampleBody_validMessages : ValidMessages sampleBody sampleLastUser :=
  ⟨sampleMessages, rfl, by decide, sampleLastUser_isLast⟩

theorem sampleBody_valid : ValidRequest sampleBody sampleLastUser :=
  ⟨sampleBody_validMessages, Or.inl rfl⟩

theorem otherBody_validMessages : ValidMessages otherBody otherLastUser :=
  ⟨[otherLastUser], rfl, by decide, [], [], rfl, by decide, by decide⟩

theorem otherBody_valid : ValidRequest otherBody otherLastUser :=
  ⟨otherBody_validMessages, Or.inr ⟨"gemini-1.5-pro", rfl⟩⟩

theorem modelOf_of_undefined (body : JVal) (h : field body "model" = .undefined) :
    modelOf body = .str "gemini-pro" := by
  simp [modelOf, h]

theorem modelOf_of_given (body : JVal) (h : field body "model" ≠ .undefined) :
    modelOf body = field body "model" := by
  unfold modelOf
  cases hm : field body "model" <;> simp_all

/-! ## The claims -/

/-- C1: when `messages` is a sequence in which `m` is the last message with
role "user", the upstream request derived by the chat completion operation
carries as its text (`contents[0].parts[0].text`) the `content` of `m`,
whatever other messages surround the user messages: a request is derived as
soon as no entry of the sequence is `null`, every request that is derived has
that text, and every upstream call that is issued sends such a request. -/
theorem C1_upstream_text_is_last_user_content (rt : Runtime) (envKey : Option String)
    (upstream : FetchCall → FetchOutcome) (t₁ t₂ : Nat) (body m : JVal) (ms : List JVal)
    (hmsgs : field body "messages" = .arr ms) (hlast : IsLastUser ms m) :
    ((∀ x ∈ ms, x.nullish = false) →
      ∃ model request, chatDerive rt body = .ok (model, request)
        ∧ requestText request = some (field m "content"))
    ∧ (∀ model request, chatDerive rt body = .ok (model, request) →
        requestText request = some (field m "content"))
    ∧ (∀ c ∈ (chatCompletions rt envKey upstream t₁ t₂ body).calls,
        ∃ request, requestText request = some (field m "content")
          ∧ c.body = rt.stringify request) := by
  have key : (∀ x ∈ ms, x.nullish = false) →
      chatDerive rt body = .ok (modelOf body, geminiRequest (field m "content")) :=
    fun hnn => chatDerive_valid rt body m ⟨ms, hmsgs, hnn, hlast⟩
  have derived : ∀ model request, chatDerive rt body = .ok (model, request) →
      requestText request = some (field m "content") := by
    intro model request hd
    have hnn : ∀ x ∈ ms, x.nullish = false := by
      rw [chatDerive_arr rt body ms hmsgs] at hd
      cases hf : filterUser rt ms with
      | error e => simp [hf] at hd
      | ok users => exact filterUser_ok_not_nullish rt ms users hf
    rw [key hnn] at hd
    injection hd with hd
    injection hd with _ hreq
    rw [← hreq]
    exact requestText_geminiRequest _
  refine ⟨fun hnn => ⟨modelOf body, geminiRequest (field m "content"), key hnn,
    requestText_geminiRequest _⟩, derived, ?_⟩
  intro c hc
  obtain ⟨model, request, hd, hf⟩ :=
    chatCompletions_mem_calls rt envKey upstream t₁ t₂ body c hc
  exact ⟨request, derived model request hd, (chatFetchCall_body rt envKey model request c hf).1⟩

/-- Witness of C1 on `sampleBody`: the upstream request derived from it has
the text of the second user message. -/
theorem C1_upstream_text_is_last_user_content_witness :
    ∃ model request, chatDerive sampleRuntime sampleBody = .ok (model, request)
      ∧ requestText request = some (.str "second question") :=
  (C1_upstream_text_is_last_user_content sampleRuntime none helloUpstream 0 0
    sampleBody sampleLastUser sampleMessages rfl sampleLastUser_isLast).1 (by decide)

/-- C2: when `messages` is absent, is not a sequence, is the empty sequence or
is a sequence without a message of role "user", the chat completion operation
issues no upstream call and answers with the HTTP 500 error body; for a body
whose properties can be read and whose messages are not `null`, the error is
the validation error "Missing messages array" when `messages` is not a
sequence and "No user message found" when it is one. -/
theorem C2_invalid_request_no_upstream_call (rt : Runtime) (envKey : Option String)
    (upstream : FetchCall → FetchOutcome) (t₁ t₂ : Nat) (body : JVal)
    (h : LacksUserMessage body) :
    (chatCompletions rt envKey upstream t₁ t₂ body).calls = []
    ∧ (chatCompletions rt envKey upstream t₁ t₂ body).response.status = 500
    ∧ ∃ e, (chatCompletions rt envKey upstream t₁ t₂ body).response.body = chatErrorBody e
      ∧ (body.nullish = false → (∀ x ∈ (field body "messages").elems, x.nullish = false) →
          ((field body "messages").isArray = false → e = ⟨"Missing messages array"⟩)
          ∧ ((field body "messages").isArray = true → e = ⟨"No user message found"⟩)) := by
  obtain ⟨e, he, hmsg⟩ := chatDerive_lacks_user rt body h
  rw [chatCompletions_of_derive_error rt envKey upstream t₁ t₂ body e he]
  exact ⟨rfl, rfl, e, rfl, hmsg⟩

/-- Witness of C2 on a body with an assistant message only: no upstream call,
and the 500 answer with "No user message found". -/
theorem C2_invalid_request_no_upstream_call_witness :
    (chatCompletions sampleRuntime none helloUpstream 0 0 assistantOnlyBody).calls = []
    ∧ (chatCompletions sampleRuntime none helloUpstream 0 0 assistantOnlyBody).response.status
        = 500
    ∧ (chatCompletions sampleRuntime none helloUpstream 0 0 assistantOnlyBody).response.body
        = chatErrorBody ⟨"No user message found"⟩ :=
  have ⟨hcalls, hstatus, _, hbody, hmsg⟩ :=
    C2_invalid_request_no_upstream_call sampleRuntime none helloUpstream 0 0 assistantOnlyBody
      (Or.inr (Or.inr (Or.inr
        ⟨[.obj [("role", .str "assistant"), ("content", .str "hi")]], rfl, by decide⟩)))
  ⟨hcalls, hstatus, hbody.trans (congrArg chatErrorBody ((hmsg rfl (by decide)).2 rfl))⟩

/-- C3: for a valid request (valid `messages`, and a `model` that is absent or
a string), when the upstream call returns a success status
and a body whose first candidate's first content part has text `t`, the
operation answers 200 with the OpenAI response whose `choices` is one choice
with `index` 0, `message.role` "assistant", `message.content` exactly `t` and
`finish_reason` "stop", and whose `usage` is the three counters at 0. -/
theorem C3_success_response_carries_text (rt : Runtime) (envKey : Option String)
    (upstream : FetchCall → FetchOutcome) (t₁ t₂ : Nat) (body m d t : JVal) (status : Nat)
    (text : Except JsError String) (hvalid : ValidRequest body m)
    (hup : ∀ c ∈ (chatCompletions rt envKey upstream t₁ t₂ body).calls,
      upstream c = .resolved true status text (.ok d))
    (ht : FirstCandidateText d t) :
    (chatCompletions rt envKey upstream t₁ t₂ body).calls.length = 1
    ∧ (chatCompletions rt envKey upstream t₁ t₂ body).response.status = 200
    ∧ (chatCompletions rt envKey upstream t₁ t₂ body).response.body
        = openAIResponse (modelOf body) t t₁ t₂
    ∧ (∃ choice,
        field (chatCompletions rt envKey upstream t₁ t₂ body).response.body "choices"
          = .arr [choice]
        ∧ field choice "index" = .num "0"
        ∧ field (field choice "message") "role" = .str "assistant"
        ∧ field (field choice "message") "content" = t
        ∧ field choice "finish_reason" = .str "stop")
    ∧ field (chatCompletions rt envKey upstream t₁ t₂ body).response.body "usage"
        = .obj [("prompt_tokens", .num "0"), ("completion_tokens", .num "0"),
            ("total_tokens", .num "0")] := by
  obtain ⟨name, hname⟩ := modelOf_named body hvalid.2
  have hout := upstream_of_calls rt envKey upstream t₁ t₂ body m name _ hvalid.1 hname hup
  rw [chatCompletions_valid rt envKey upstream t₁ t₂ body m name hvalid.1 hname, hout, hname]
  simp only [chatAfterFetch, chatTranslate_first_text rt (.str name) d t t₁ t₂ ht]
  refine ⟨rfl, rfl, rfl, ⟨_, rfl, ?_, ?_, ?_, ?_⟩, ?_⟩ <;>
    simp [openAIResponse, field, lookupField]

/-- Witness of C3: the specification's example body with text "hello". -/
theorem C3_success_response_carries_text_witness :
    (chatCompletions sampleRuntime none helloUpstream 1700000000123 1700000000456
        sampleBody).response.status = 200
    ∧ (chatCompletions sampleRuntime none helloUpstream 1700000000123 1700000000456
        sampleBody).response.body
        = openAIResponse (.str "gemini-pro") (.str "hello") 1700000000123 1700000000456 :=
  have h := C3_success_response_carries_text sampleRuntime none helloUpstream 1700000000123
    1700000000456 sampleBody sampleLastUser helloBody (.str "hello") 200 (.ok "")
    sampleBody_valid (fun _ _ => rfl)
    ⟨_, [], .obj [("text", .str "hello")], [], rfl, rfl, rfl, rfl⟩
  ⟨h.2.1, h.2.2.1⟩

/-- C4: for a valid request (valid `messages`, and a `model` that is absent or
a string), when the upstream call returns a non-success status `s` with body text `b`, the operation answers 500 (never 200) with the
error body whose message is "Gemini API error: " followed by `s`, " - " and
`b` unchanged, after exactly one upstream call. -/
theorem C4_upstream_failure_carries_status_and_text (rt : Runtime) (envKey : Option String)
    (upstream : FetchCall → FetchOutcome) (t₁ t₂ : Nat) (body m : JVal) (s : Nat) (b : String)
    (json : Except JsError JVal) (hvalid : ValidRequest body m)
    (hup : ∀ c ∈ (chatCompletions rt envKey upstream t₁ t₂ body).calls,
      upstream c = .resolved false s (.ok b) json) :
    (chatCompletions rt envKey upstream t₁ t₂ body).response
        = ⟨500, chatErrorBody ⟨"Gemini API error: " ++ toString s ++ " - " ++ b⟩⟩
    ∧ field (field (chatCompletions rt envKey upstream t₁ t₂ body).response.body "error")
        "message" = .str ("Gemini API error: " ++ toString s ++ " - " ++ b)
    ∧ (chatCompletions rt envKey upstream t₁ t₂ body).response.status ≠ 200
    ∧ (chatCompletions rt envKey upstream t₁ t₂ body).calls.length = 1 := by
  obtain ⟨name, hname⟩ := modelOf_named body hvalid.2
  have hout := upstream_of_calls rt envKey upstream t₁ t₂ body m name _ hvalid.1 hname hup
  rw [chatCompletions_valid rt envKey upstream t₁ t₂ body m name hvalid.1 hname, hout]
  simp [chatAfterFetch, chatErrorBody, field, lookupField]

/-- Witness of C4: status 429 with text "quota exceeded". -/
theorem C4_upstream_failure_carries_status_and_text_witness :
    (chatCompletions sampleRuntime none busyUpstream 0 0 sampleBody).response
      = ⟨500, chatErrorBody ⟨"Gemini API error: 429 - quota exceeded"⟩⟩ :=
  (C4_upstream_failure_carries_status_and_text sampleRuntime none busyUpstream 0 0 sampleBody
    sampleLastUser 429 "quota exceeded" (.error ⟨"not JSON"⟩) sampleBody_valid
    (fun _ _ => rfl)).1

/-- C5: for a valid request (valid `messages`, and a `model` that is absent or
a string) whose upstream call returns a success status and a parsed body `d`: when `d` lacks a non-empty candidate list, the operation
answers 500 with the error body, after exactly one upstream call, and the
error is "No response from Gemini" as soon as `d` is not `null`; and the
operation answers 200 only if `d` contains at least one candidate. -/
theorem C5_missing_candidates_fail (rt : Runtime) (envKey : Option String)
    (upstream : FetchCall → FetchOutcome) (t₁ t₂ : Nat) (body m d : JVal) (status : Nat)
    (text : Except JsError String) (hvalid : ValidRequest body m)
    (hup : ∀ c ∈ (chatCompletions rt envKey upstream t₁ t₂ body).calls,
      upstream c = .resolved true status text (.ok d)) :
    (LacksCandidate d →
      (chatCompletions rt envKey upstream t₁ t₂ body).calls.length = 1
      ∧ (chatCompletions rt envKey upstream t₁ t₂ body).response.status = 500
      ∧ ∃ e, (chatCompletions rt envKey upstream t₁ t₂ body).response.body = chatErrorBody e
        ∧ (d.nullish = false → e = ⟨"No response from Gemini"⟩))
    ∧ ((chatCompletions rt envKey upstream t₁ t₂ body).response.status = 200 →
        HasFirstCandidate d) := by
  obtain ⟨name, hname⟩ := modelOf_named body hvalid.2
  have hout := upstream_of_calls rt envKey upstream t₁ t₂ body m name _ hvalid.1 hname hup
  rw [chatCompletions_valid rt envKey upstream t₁ t₂ body m name hvalid.1 hname, hout]
  simp only [chatAfterFetch, Bool.not_true, Bool.false_eq_true, if_false]
  constructor
  · intro hl
    obtain ⟨e, he, hmsg⟩ := chatTranslate_lacks rt (.str name) d t₁ t₂ hl
    rw [he]
    exact ⟨rfl, rfl, e, rfl, hmsg⟩
  · intro hs
    cases htr : chatTranslate rt (.str name) d t₁ t₂ with
    | ok out => exact chatTranslate_ok_has_first rt (.str name) d out t₁ t₂ htr
    | error e => simp [htr] at hs

/-- Witness of C5: an upstream body with an empty candidate list gives the
500 answer with "No response from Gemini". -/
theorem C5_missing_candidates_fail_witness :
    (chatCompletions sampleRuntime none emptyUpstream 0 0 sampleBody).calls.length = 1
    ∧ (chatCompletions sampleRuntime none emptyUpstream 0 0 sampleBody).response.status = 500
    ∧ (chatCompletions sampleRuntime none emptyUpstream 0 0 sampleBody).response.body
        = chatErrorBody ⟨"No response from Gemini"⟩ :=
  have ⟨hcalls, hstatus, _, hbody, hmsg⟩ :=
    (C5_missing_candidates_fail sampleRuntime none emptyUpstream 0 0 sampleBody sampleLastUser
      (.obj [("candidates", .arr [])]) 200 (.ok "") sampleBody_valid (fun _ _ => rfl)).1
      (Or.inr (Or.inr (Or.inl rfl)))
  ⟨hcalls, hstatus, hbody.trans (congrArg chatErrorBody (hmsg rfl))⟩

/-- C6 (as amended): for every request that the JSON middleware accepts and
that Express routes to `POST /v1/chat/completions`, whatever the body and
whatever the upstream does, the application answers with the chat handler's
response: either 200 with a complete OpenAI response, or 500 with a body of
exactly the form `error: (message, type "api_error", code "processing_error")`;
every error thrown in the handler's `try` block gives the second answer, with
that error's message. -/
theorem C6_chat_failures_are_500_processing_error (rt : Runtime) (routing : Routing)
    (w : World) (req : Request) (b : JVal) (hbody : req.body = .ok b)
    (hhealth : (routing.verbMatches "GET" req.method
      && routing.pathMatches "/" req.path) = false)
    (hmodels : (routing.verbMatches "GET" req.method
      && routing.pathMatches "/v1/models" req.path) = false)
    (hchat : (routing.verbMatches "POST" req.method
      && routing.pathMatches "/v1/chat/completions" req.path) = true) :
    app rt routing w req = chatCompletions rt w.envKey w.upstream w.t₁ w.t₂ b
    ∧ (((app rt routing w req).response.status = 200
        ∧ ∃ model text, (app rt routing w req).response.body
            = openAIResponse model text w.t₁ w.t₂)
      ∨ ((app rt routing w req).response.status = 500
        ∧ ∃ msg, (app rt routing w req).response.body
            = .obj [("error", .obj [("message", .str msg), ("type", .str "api_error"),
                ("code", .str "processing_error")])]
          ∧ field (field (app rt routing w req).response.body "error") "message" = .str msg
          ∧ field (field (app rt routing w req).response.body "error") "type"
              = .str "api_error"
          ∧ field (field (app rt routing w req).response.body "error") "code"
              = .str "processing_error"))
    ∧ ∀ e, (chatTry rt w.envKey w.upstream w.t₁ w.t₂ b).2 = .error e →
        (app rt routing w req).response
          = ⟨500, .obj [("error", .obj [("message", .str e.message),
              ("type", .str "api_error"), ("code", .str "processing_error")])]⟩ := by
  have happ : app rt routing w req = chatCompletions rt w.envKey w.upstream w.t₁ w.t₂ b := by
    unfold app
    rw [hbody]
    simp only [hhealth, hmodels, hchat, if_true, Bool.false_eq_true, if_false]
  rw [happ]
  refine ⟨rfl, ?_, ?_⟩
  · rcases chatCompletions_answers rt w.envKey w.upstream w.t₁ w.t₂ b with h | ⟨hs, msg, hb⟩
    · exact Or.inl h
    · refine Or.inr ⟨hs, msg, hb, ?_, ?_, ?_⟩ <;> simp [hb, field, lookupField]
  · intro e he
    rw [chatCompletions_response, he]
    rfl

/-- Witness of C6 (as amended): `POST /v1/chat/completions` with an assistant
message only is answered 500 with the code "processing_error". -/
theorem C6_chat_failures_are_500_processing_error_witness :
    (app sampleRuntime express4Routing sampleWorld assistantOnlyRequest).response
      = ⟨500, .obj [("error", .obj [("message", .str "No user message found"),
          ("type", .str "api_error"), ("code", .str "processing_error")])]⟩ :=
  (C6_chat_failures_are_500_processing_error sampleRuntime express4Routing sampleWorld
    assistantOnlyRequest assistantOnlyBody rfl (by decide) (by decide) (by decide)).2.2
    ⟨"No user message found"⟩ rfl

/-- C6 as stated fails: `POST /v1/chat/completions` with a body that
`express.json()` cannot parse is routed to no handler; the application
answers 500 with type "internal_error" and without any `code`. -/
theorem C6_counterexample_unparsable_body :
    (express4Routing.verbMatches "POST" brokenChatRequest.method
      && express4Routing.pathMatches "/v1/chat/completions" brokenChatRequest.path) = true
    ∧ (app sampleRuntime express4Routing sampleWorld brokenChatRequest).response.status = 500
    ∧ field (field (app sampleRuntime express4Routing sampleWorld brokenChatRequest).response.body
        "error") "type" = .str "internal_error"
    ∧ field (field (app sampleRuntime express4Routing sampleWorld brokenChatRequest).response.body
        "error") "code" = .undefined
    ∧ field (field (app sampleRuntime express4Routing sampleWorld brokenChatRequest).response.body
        "error") "code" ≠ .str "processing_error" := by
  refine ⟨by decide, rfl, ?_, ?_, ?_⟩ <;>
    simp [app, brokenChatRequest, errorMiddleware, field, lookupField]

/-- C7: for two bodies with valid `messages` whose last user messages have
the same content, every upstream call issued has as body the serialisation
of the object with exactly one content block holding exactly one part, whose
text is that content, and the generation configuration temperature 0.7, topK
40, topP 0.95, maxOutputTokens 2048, so any call for the one body and any
call for the other send the same body, whatever their other messages, model,
other fields, key, upstream and clock; and when each model is absent or a
string, each request issues exactly one such call. -/
theorem C7_upstream_body_depends_only_on_last_user_content (rt : Runtime)
    (envKey₁ envKey₂ : Option String) (upstream₁ upstream₂ : FetchCall → FetchOutcome)
    (t₁ t₂ u₁ u₂ : Nat) (body₁ m₁ body₂ m₂ : JVal)
    (h₁ : ValidMessages body₁ m₁) (h₂ : ValidMessages body₂ m₂)
    (hcontent : field m₁ "content" = field m₂ "content") :
    (∀ c₁ ∈ (chatCompletions rt envKey₁ upstream₁ t₁ t₂ body₁).calls,
      c₁.body = rt.stringify (.obj [
          ("contents", .arr [.obj [("parts", .arr [.obj [("text", field m₁ "content")]])]]),
          ("generationConfig", .obj [
            ("temperature", .num "0.7"),
            ("topK", .num "40"),
            ("topP", .num "0.95"),
            ("maxOutputTokens", .num "2048")])]))
    ∧ (∀ c₁ ∈ (chatCompletions rt envKey₁ upstream₁ t₁ t₂ body₁).calls,
        ∀ c₂ ∈ (chatCompletions rt envKey₂ upstream₂ u₁ u₂ body₂).calls, c₁.body = c₂.body)
    ∧ (NamedModel body₁ → NamedModel body₂ →
        ∃ c₁ c₂, (chatCompletions rt envKey₁ upstream₁ t₁ t₂ body₁).calls = [c₁]
          ∧ (chatCompletions rt envKey₂ upstream₂ u₁ u₂ body₂).calls = [c₂]
          ∧ c₁.body = c₂.body) := by
  have body_of : ∀ (envKey : Option String) (upstream : FetchCall → FetchOutcome)
      (a b : Nat) (body m : JVal), ValidMessages body m →
      ∀ c ∈ (chatCompletions rt envKey upstream a b body).calls,
        c.body = rt.stringify (geminiRequest (field m "content")) := by
    intro envKey upstream a b body m hv c hc
    obtain ⟨model, request, hd, hf⟩ := chatCompletions_mem_calls rt envKey upstream a b body c hc
    rw [chatDerive_valid rt body m hv] at hd
    injection hd with hd
    injection hd with _ hreq
    rw [(chatFetchCall_body rt envKey model request c hf).1, ← hreq]
  refine ⟨body_of envKey₁ upstream₁ t₁ t₂ body₁ m₁ h₁, ?_, ?_⟩
  · intro c₁ hc₁ c₂ hc₂
    rw [body_of envKey₁ upstream₁ t₁ t₂ body₁ m₁ h₁ c₁ hc₁,
      body_of envKey₂ upstream₂ u₁ u₂ body₂ m₂ h₂ c₂ hc₂, hcontent]
  · intro hn₁ hn₂
    obtain ⟨name₁, hname₁⟩ := modelOf_named body₁ hn₁
    obtain ⟨name₂, hname₂⟩ := modelOf_named body₂ hn₂
    refine ⟨_, _, chatCompletions_valid_calls rt envKey₁ upstream₁ t₁ t₂ body₁ m₁ name₁ h₁ hname₁,
      chatCompletions_valid_calls rt envKey₂ upstream₂ u₁ u₂ body₂ m₂ name₂ h₂ hname₂, ?_⟩
    simp only [namedCall, hcontent]

/-- Witness of C7: `sampleBody` and `otherBody`, which differ in model, key,
other fields and other messages, each send one call, with the same JSON
body. -/
theorem C7_upstream_body_depends_only_on_last_user_content_witness :
    (∃ c₁ c₂, (chatCompletions sampleRuntime none helloUpstream 0 0 sampleBody).calls = [c₁]
      ∧ (chatCompletions sampleRuntime (some "secret") busyUpstream 5 7 otherBody).calls = [c₂]
      ∧ c₁.body = c₂.body)
    ∧ ∀ c ∈ (chatCompletions sampleRuntime none helloUpstream 0 0 sampleBody).calls,
        c.body = some "\x7b\x22contents\x22:[\x7b\x22parts\x22:[\x7b\x22text\x22:\x22second question\x22\x7d]\x7d],\x22generationConfig\x22:\x7b\x22temperature\x22:0.7,\x22topK\x22:40,\x22topP\x22:0.95,\x22maxOutputTokens\x22:2048\x7d\x7d" :=
  have h := C7_upstream_body_depends_only_on_last_user_content
    sampleRuntime none (some "secret") helloUpstream busyUpstream 0 0 5 7
    sampleBody sampleLastUser otherBody otherLastUser sampleBody_validMessages
    otherBody_validMessages rfl
  ⟨h.2.2 (Or.inl rfl) (Or.inr ⟨"gemini-1.5-pro", rfl⟩), h.1⟩

/-- C8: the model name is the request's `model` when given and "gemini-pro"
otherwise; for a valid request, whose model is thus a string `name`, the one
upstream call has method POST and the URL
`https://generativelanguage.googleapis.com/v1/models/` + `name` +
`:generateContent?key=` + key; a 200 answer has that same model as its `model`
field, and the answer is such a 200 whenever the upstream returns a success
status and a body with a first candidate text. -/
theorem C8_model_in_url_and_response (rt : Runtime) (envKey : Option String)
    (upstream : FetchCall → FetchOutcome) (t₁ t₂ : Nat) (body m : JVal)
    (hvalid : ValidRequest body m) :
    (field body "model" = .undefined → modelOf body = .str "gemini-pro")
    ∧ (field body "model" ≠ .undefined → modelOf body = field body "model")
    ∧ ∃ name c, modelOf body = .str name
        ∧ (chatCompletions rt envKey upstream t₁ t₂ body).calls = [c]
        ∧ c.method = "POST"
        ∧ c.url = "https://generativelanguage.googleapis.com/v1/models/"
            ++ name ++ ":generateContent?key=" ++ keyText envKey
        ∧ ((chatCompletions rt envKey upstream t₁ t₂ body).response.status = 200 →
            field (chatCompletions rt envKey upstream t₁ t₂ body).response.body "model"
              = .str name)
        ∧ (∀ status text d t, upstream c = .resolved true status text (.ok d) →
            FirstCandidateText d t →
            (chatCompletions rt envKey upstream t₁ t₂ body).response.status = 200
            ∧ field (chatCompletions rt envKey upstream t₁ t₂ body).response.body "model"
                = .str name) := by
  obtain ⟨name, hname⟩ := modelOf_named body hvalid.2
  refine ⟨modelOf_of_undefined body, modelOf_of_given body, name,
    namedCall rt envKey name (geminiRequest (field m "content")), hname,
    chatCompletions_valid_calls rt envKey upstream t₁ t₂ body m name hvalid.1 hname,
    rfl, rfl, ?_, ?_⟩
  · rw [chatCompletions_valid rt envKey upstream t₁ t₂ body m name hvalid.1 hname]
    cases ha : chatAfterFetch rt (.str name)
        (upstream (namedCall rt envKey name (geminiRequest (field m "content")))) t₁ t₂ with
    | error e => intro hs; simp at hs
    | ok out =>
      obtain ⟨text, ht⟩ := chatAfterFetch_ok_form rt (.str name) out _ t₁ t₂ ha
      intro _
      simp [ht, openAIResponse, field, lookupField]
  · intro status text d t hup ht
    rw [chatCompletions_valid rt envKey upstream t₁ t₂ body m name hvalid.1 hname, hup]
    simp only [chatAfterFetch, chatTranslate_first_text rt (.str name) d t t₁ t₂ ht]
    exact ⟨rfl, by simp [openAIResponse, field, lookupField]⟩

/-- Witness of C8: `otherBody` names "gemini-1.5-pro", the key is "secret"
and the upstream answers "hello": the URL carries the model and the key, and
the 200 answer echoes the model. -/
theorem C8_model_in_url_and_response_witness :
    (∃ c, (chatCompletions sampleRuntime (some "secret") helloUpstream 0 0 otherBody).calls = [c]
      ∧ c.method = "POST"
      ∧ c.url = "https://generativelanguage.googleapis.com/v1/models/gemini-1.5-pro:generateContent?key=secret")
    ∧ (chatCompletions sampleRuntime (some "secret") helloUpstream 0 0 otherBody).response.status
        = 200
    ∧ field (chatCompletions sampleRuntime (some "secret") helloUpstream 0 0 otherBody).response.body
        "model" = .str "gemini-1.5-pro" :=
  by
  obtain ⟨name, c, hname, hc, hm, hu, _, hecho⟩ := (C8_model_in_url_and_response sampleRuntime
    (some "secret") helloUpstream 0 0 otherBody otherLastUser otherBody_valid).2.2
  have hn : name = "gemini-1.5-pro" := by
    have h : JVal.str "gemini-1.5-pro" = JVal.str name := hname
    injection h with h
    exact h.symm
  subst hn
  have h200 := hecho 200 (.ok "") helloBody (.str "hello") rfl
    ⟨_, [], .obj [("text", .str "hello")], [], rfl, rfl, rfl, rfl⟩
  exact ⟨⟨c, hc, hm, hu⟩, h200.1, h200.2⟩

/-- C9 (as amended): for every request whose body the JSON middleware
accepts, whose path matches none of the routes `/`, `/v1/models` and
`/v1/chat/completions`, and whose path Express can decode when it matches it
against `'*'`, whatever its method, the application answers 404 with the body
`error: (message, type)` in which `type` is "not_found" and `message` is
"Route " + original URL + " not found", hence contains the original URL; no
upstream call is issued. -/
theorem C9_unmatched_path_is_404 (rt : Runtime) (routing : Routing) (w : World)
    (req : Request) (b : JVal) (hbody : req.body = .ok b)
    (h₁ : routing.pathMatches "/" req.path = false)
    (h₂ : routing.pathMatches "/v1/models" req.path = false)
    (h₃ : routing.pathMatches "/v1/chat/completions" req.path = false)
    (hstar : routing.star req.path = .ok ()) :
    (app rt routing w req).response.status = 404
    ∧ (app rt routing w req).response.body
        = .obj [("error", .obj [
            ("message", .str ("Route " ++ req.originalUrl ++ " not found")),
            ("type", .str "not_found")])]
    ∧ field (field (app rt routing w req).response.body "error") "type" = .str "not_found"
    ∧ (∃ before after, field (field (app rt routing w req).response.body "error") "message"
        = .str (before ++ req.originalUrl ++ after))
    ∧ (app rt routing w req).calls = [] := by
  have happ : app rt routing w req = notFound req.originalUrl := by
    simp [app, hbody, h₁, h₂, h₃, hstar]
  rw [happ]
  refine ⟨rfl, rfl, ?_, ⟨"Route ", " not found", ?_⟩, rfl⟩ <;>
    simp [notFound, field, lookupField]

/-- Witness of C9 (as amended): `GET /v1/unknown`. -/
theorem C9_unmatched_path_is_404_witness :
    (app sampleRuntime express4Routing sampleWorld unknownRequest).response
      = ⟨404, .obj [("error", .obj [
          ("message", .str "Route /v1/unknown not found"),
          ("type", .str "not_found")])]⟩ :=
  have h := C9_unmatched_path_is_404 sampleRuntime express4Routing sampleWorld unknownRequest
    (.obj []) rfl (by decide) (by decide) (by decide) rfl
  congrArg₂ Response.mk h.1 h.2.1

/-- C9 as stated fails: `POST /v1/unknown` with a body that `express.json()`
cannot parse, and `GET /%E0%A4%A` whose path cannot be decoded, match none of
the three routes, and the application answers 500 with type "internal_error",
not 404 with type "not_found". -/
theorem C9_counterexample_unparsable_body :
    (express4Routing.pathMatches "/" brokenJsonRequest.path = false
      ∧ express4Routing.pathMatches "/v1/models" brokenJsonRequest.path = false
      ∧ express4Routing.pathMatches "/v1/chat/completions" brokenJsonRequest.path = false
      ∧ (app sampleRuntime express4Routing sampleWorld brokenJsonRequest).response.status = 500
      ∧ (app sampleRuntime express4Routing sampleWorld brokenJsonRequest).response.status ≠ 404
      ∧ field (field
          (app sampleRuntime express4Routing sampleWorld brokenJsonRequest).response.body
          "error") "type" = .str "internal_error")
    ∧ (express4Routing.pathMatches "/" badEscapeRequest.path = false
      ∧ express4Routing.pathMatches "/v1/models" badEscapeRequest.path = false
      ∧ express4Routing.pathMatches "/v1/chat/completions" badEscapeRequest.path = false
      ∧ (app sampleRuntime express4Routing sampleWorld badEscapeRequest).response.status = 500
      ∧ (app sampleRuntime express4Routing sampleWorld badEscapeRequest).response.status ≠ 404
      ∧ field (field
          (app sampleRuntime express4Routing sampleWorld badEscapeRequest).response.body
          "error") "type" = .str "internal_error") := by
  refine ⟨⟨by decide, by decide, by decide, rfl, by decide, ?_⟩,
    ⟨by decide, by decide, by decide, rfl, by decide, rfl⟩⟩
  simp [app, brokenJsonRequest, errorMiddleware, field, lookupField]

/-- C10: the error-handling middleware answers every error with the same
response, HTTP 500 with message "Internal server error" and type
"internal_error", so nothing of the error reaches the caller; and an error
that `express.json()` passes on, which no handler converts itself, gets
exactly that response whatever the request and the error. -/
theorem C10_error_barrier_is_generic (rt : Runtime) (routing : Routing) (w : World)
    (method path originalUrl : String) (e₁ e₂ : JsError) :
    errorMiddleware e₁ = errorMiddleware e₂
    ∧ (errorMiddleware e₁).response
        = ⟨500, .obj [("error", .obj [
            ("message", .str "Internal server error"),
            ("type", .str "internal_error")])]⟩
    ∧ field (field (errorMiddleware e₁).response.body "error") "type" = .str "internal_error"
    ∧ app rt routing w ⟨method, path, originalUrl, .error e₁⟩ = errorMiddleware e₁
    ∧ app rt routing w ⟨method, path, originalUrl, .error e₁⟩
        = app rt routing w ⟨method, path, originalUrl, .error e₂⟩ := by
  refine ⟨rfl, rfl, ?_, rfl, rfl⟩
  simp [errorMiddleware, field, lookupField]

end GeminiProxy
